import Mathlib

/-!
Verification of the `openclaw-agent-did` plugin against its specification.

The repository is a CLI plugin whose own code covers command routing, a
singleton keystore-manager cache, output formatting and error normalization;
cryptographic and credential-construction operations are delegated to the
external `agent-did` library.  This development shallowly embeds the plugin's
own logic (keystore manager, command actions) as executable Lean functions,
and models the external library's contract, where a claim requires it, from
the specification's words (such definitions are marked `Modelled from the
spec:` in their doc comments).
-/

namespace AgentDid

/-! ## Process environment and external collaborators -/

/-- The slice of the process environment the keystore manager reads.
`none` means the variable is unset; `some ""` means it is set to the empty
string (the two are distinguished by the code via `!== undefined`). -/
structure Env where
  agentDidPassphrase : Option String
  agentDidHome : Option String
  homedir : String
deriving Repr, DecidableEq

/-- Errors raised (as thrown `Error`s in the source) or named by the spec's
error taxonomy. -/
inductive KsError where
  | missingPassphrase
  | confirmationRequired
  | ownerNotFound (did : String)
  | ownerTypeMismatch (did : String)
  | issuerNotFound (did : String)
  | issuerNotOwner (did : String)
  | keyNotFound (did : String)
  | invalidScopes
  | fileNotFound (p : String)
  | invalidJwt
deriving Repr, DecidableEq

/-! ## KeystoreManager (src/utils/keystore-manager.ts) -/

/-- The arguments the manager passes to the external `Keystore` constructor,
plus a construction identity `uid` used to state which calls constructed a
fresh instance and which returned the cached one. -/
structure Keystore where
  storePath : String
  passphrase : Option String
  skipValidation : Bool
  uid : Nat
deriving Repr, DecidableEq

/-- The manager's static mutable fields (`instance`, `currentPath`,
`currentEncryption`), plus the next construction identity. -/
structure MgrState where
  inst : Option Keystore
  currentPath : Option String
  currentEncryption : Option Bool
  nextUid : Nat
deriving Repr, DecidableEq

/-- The manager's state at process start: all static fields `null`. -/
def MgrState.empty : MgrState := ⟨none, none, none, 0⟩

/-- `KeystoreManager.getStorePath`: a truthy custom path is resolved
(`path.resolve` is external and passed in as `resolve`); otherwise the
`AGENT_DID_HOME` variable if truthy, else `homedir()/.agent-did`. -/
def getStorePath (resolve : String → String) (env : Env)
    (customPath : Option String) : String :=
  match customPath with
  | some p =>
      if p = "" then
        match env.agentDidHome with
        | some h => if h = "" then env.homedir ++ "/.agent-did" else h
        | none => env.homedir ++ "/.agent-did"
      else resolve p
  | none =>
      match env.agentDidHome with
      | some h => if h = "" then env.homedir ++ "/.agent-did" else h
      | none => env.homedir ++ "/.agent-did"

/-- `KeystoreManager.getPassphrase`: `null` when encryption is disabled;
otherwise the `AGENT_DID_PASSPHRASE` variable when set (`null` if it is the
empty string); otherwise a thrown missing-passphrase error. -/
def getPassphrase (noEncryption : Bool) (env : Env) :
    Except KsError (Option String) :=
  if noEncryption then .ok none
  else
    match env.agentDidPassphrase with
    | some p => if p = "" then .ok none else .ok (some p)
    | none => .error .missingPassphrase

/-- Result of a successful `getKeystore`/`getNewKeystore` call: the returned
keystore, the manager state afterwards, and whether the plaintext warning was
printed on this call. -/
structure KsResult where
  ks : Keystore
  state : MgrState
  warned : Bool
deriving Repr, DecidableEq

/-- `KeystoreManager.getKeystore`: return the cached instance when the cached
path and encryption mode match; otherwise obtain a passphrase, warn when
encryption was disabled and the passphrase is `null`, construct a fresh
`Keystore(resolvedPath, passphrase, true)` and cache it. -/
def getKeystore (resolve : String → String) (env : Env) (s : MgrState)
    (customPath : Option String) (noEncryption : Bool) :
    Except KsError KsResult :=
  let resolvedPath := getStorePath resolve env customPath
  if h : s.inst.isSome ∧ s.currentPath = some resolvedPath ∧
      s.currentEncryption = some (!noEncryption) then
    .ok ⟨s.inst.get h.1, s, false⟩
  else
    match getPassphrase noEncryption env with
    | .error e => .error e
    | .ok passphrase =>
      let k : Keystore := ⟨resolvedPath, passphrase, true, s.nextUid⟩
      .ok ⟨k, ⟨some k, some resolvedPath, some (!noEncryption), s.nextUid + 1⟩,
        noEncryption && passphrase.isNone⟩

/-- `KeystoreManager.getNewKeystore`: never consults or updates the cache;
obtains a passphrase, warns on the same condition, and constructs
`Keystore(resolvedPath, passphrase, false)`. -/
def getNewKeystore (resolve : String → String) (env : Env) (s : MgrState)
    (customPath : Option String) (noEncryption : Bool) :
    Except KsError KsResult :=
  let resolvedPath := getStorePath resolve env customPath
  match getPassphrase noEncryption env with
  | .error e => .error e
  | .ok passphrase =>
    .ok ⟨⟨resolvedPath, passphrase, false, s.nextUid⟩, s,
      noEncryption && passphrase.isNone⟩

end AgentDid

namespace AgentDid

/-- C1: with encryption requested (no `--no-encryption`) and
`AGENT_DID_PASSPHRASE` unset, `getPassphrase` fails with the
missing-passphrase error, and so do `getKeystore` (on any call that does not
hit the cache, i.e. any call that would actually open a keystore) and
`getNewKeystore` (always); no keystore value is constructed or returned on
this path. -/
theorem c1_missing_passphrase (resolve : String → String) (env : Env)
    (s : MgrState) (cp : Option String)
    (henv : env.agentDidPassphrase = none)
    (hmiss : ¬ (s.inst.isSome ∧ s.currentPath = some (getStorePath resolve env cp) ∧
      s.currentEncryption = some true)) :
    getPassphrase false env = .error KsError.missingPassphrase ∧
    getKeystore resolve env s cp false = .error KsError.missingPassphrase ∧
    getNewKeystore resolve env s cp false = .error KsError.missingPassphrase := by
  have hp : getPassphrase false env = .error KsError.missingPassphrase := by
    simp [getPassphrase, henv]
  refine ⟨hp, ?_, ?_⟩
  · simp only [getKeystore]
    rw [dif_neg (by simpa using hmiss)]
    rw [hp]
  · simp only [getNewKeystore]
    rw [hp]

/-- Witness for C1 at a concrete environment: fresh manager state, no custom
path, passphrase unset. -/
theorem c1_witness :
    getKeystore id ⟨none, none, "/home/user"⟩ MgrState.empty none false =
      .error KsError.missingPassphrase :=
  (c1_missing_passphrase id ⟨none, none, "/home/user"⟩ MgrState.empty none rfl
    (by simp [MgrState.empty])).2.1

/-- C5: `getKeystore` caches at most one instance, keyed by resolved path and
encryption mode.  After any successful call, an immediately repeated call with
the same arguments returns the identical instance and leaves the state
unchanged; any call whose resolved path or encryption mode does not match the
cached key constructs a fresh keystore (uid equal to the state's next
construction identity), replaces the cache with it, and never returns a stale
instance. -/
theorem c5_cache_keyed (resolve : String → String) (env : Env) (s : MgrState)
    (cp : Option String) (ne : Bool) (r : KsResult)
    (h : getKeystore resolve env s cp ne = .ok r) :
    getKeystore resolve env r.state cp ne = .ok ⟨r.ks, r.state, false⟩ ∧
    (¬ (s.inst.isSome ∧ s.currentPath = some (getStorePath resolve env cp) ∧
        s.currentEncryption = some (!ne)) →
      r.ks.uid = s.nextUid ∧
      r.state = ⟨some r.ks, some (getStorePath resolve env cp), some (!ne),
        s.nextUid + 1⟩ ∧
      ∀ k₀, s.inst = some k₀ → k₀.uid < s.nextUid → r.ks ≠ k₀) := by
  simp only [getKeystore] at h
  by_cases h' : s.inst.isSome ∧ s.currentPath = some (getStorePath resolve env cp) ∧
      s.currentEncryption = some (!ne)
  · rw [dif_pos h'] at h
    injection h with h2
    subst h2
    constructor
    · simp only [getKeystore]
      rw [dif_pos h']
    · intro hc
      exact absurd h' hc
  · rw [dif_neg h'] at h
    cases hpp : getPassphrase ne env with
    | error e =>
      rw [hpp] at h
      cases h
    | ok pp =>
      rw [hpp] at h
      injection h with h2
      subst h2
      refine ⟨?_, fun _ => ⟨rfl, rfl, ?_⟩⟩
      · simp only [getKeystore]
        exact dif_pos ⟨rfl, trivial, trivial⟩
      · intro k₀ hk₀ hlt heq
        have huid : s.nextUid = k₀.uid := congrArg Keystore.uid heq
        omega

/-- Witness for C5: a concrete successful call from the empty manager state
with a passphrase in the environment, followed by a repeated call that returns
the cached instance. -/
theorem c5_witness :
    getKeystore id ⟨some "pw", none, "/h"⟩
      ⟨some ⟨"/h/.agent-did", some "pw", true, 0⟩, some "/h/.agent-did",
        some true, 1⟩ none false =
    .ok ⟨⟨"/h/.agent-did", some "pw", true, 0⟩,
      ⟨some ⟨"/h/.agent-did", some "pw", true, 0⟩, some "/h/.agent-did",
        some true, 1⟩, false⟩ :=
  (c5_cache_keyed id ⟨some "pw", none, "/h"⟩ MgrState.empty none false
    ⟨⟨"/h/.agent-did", some "pw", true, 0⟩,
      ⟨some ⟨"/h/.agent-did", some "pw", true, 0⟩, some "/h/.agent-did",
        some true, 1⟩, false⟩ (by rfl)).1

/-- A concrete environment where `AGENT_DID_PASSPHRASE` is set to the empty
string and encryption is not otherwise disabled. -/
def envEmptyPass : Env := ⟨some "", none, "/home/user"⟩

/-- The plaintext-warning observable of a keystore-opening call. -/
def warnedOf (r : Except KsError KsResult) : Option Bool :=
  r.toOption.map KsResult.warned

/-- The cached-encryption-mode observable of a keystore-opening call. -/
def cachedEncryptionOf (r : Except KsError KsResult) : Option (Option Bool) :=
  r.toOption.map (fun x => x.state.currentEncryption)

/-- C3 counterexample: from the same fresh state, opening with
`AGENT_DID_PASSPHRASE=""` (encryption not disabled) and opening with the
explicit `--no-encryption` flag differ in warning output (no warning vs.
warning) and in the cache key's encryption mode, so the two configurations are
not treated identically. -/
theorem c3_counterexample :
    warnedOf (getKeystore id envEmptyPass MgrState.empty none false) ≠
      warnedOf (getKeystore id envEmptyPass MgrState.empty none true) ∧
    cachedEncryptionOf (getKeystore id envEmptyPass MgrState.empty none false) ≠
      cachedEncryptionOf (getKeystore id envEmptyPass MgrState.empty none true) := by
  decide

/-- C3 amended: with `AGENT_DID_PASSPHRASE` set to the empty string, a
keystore-opening call (from a state with no cached instance) constructs the
same keystore value as explicit `--no-encryption` — in particular a `null`
passphrase, i.e. plaintext mode — but, unlike explicit disablement, it prints
no plaintext warning and records encryption mode `true` in the cache key. -/
theorem c3_empty_passphrase_plaintext (resolve : String → String) (env : Env)
    (s : MgrState) (cp : Option String)
    (hp : env.agentDidPassphrase = some "") (hs : s.inst = none) :
    ∃ rA rB,
      getKeystore resolve env s cp false = .ok rA ∧
      getKeystore resolve env s cp true = .ok rB ∧
      rA.ks = rB.ks ∧ rA.ks.passphrase = none ∧
      rA.warned = false ∧ rB.warned = true ∧
      rA.state.currentEncryption = some true ∧
      rB.state.currentEncryption = some false := by
  have hA : getPassphrase false env = .ok none := by
    simp [getPassphrase, hp]
  have hB : getPassphrase true env = .ok none := rfl
  have hcond : ∀ b : Bool,
      ¬ (s.inst.isSome ∧ s.currentPath = some (getStorePath resolve env cp) ∧
        s.currentEncryption = some b) := by
    intro b hc
    rw [hs] at hc
    simp at hc
  refine ⟨⟨⟨getStorePath resolve env cp, none, true, s.nextUid⟩,
      ⟨some ⟨getStorePath resolve env cp, none, true, s.nextUid⟩,
        some (getStorePath resolve env cp), some true, s.nextUid + 1⟩, false⟩,
    ⟨⟨getStorePath resolve env cp, none, true, s.nextUid⟩,
      ⟨some ⟨getStorePath resolve env cp, none, true, s.nextUid⟩,
        some (getStorePath resolve env cp), some false, s.nextUid + 1⟩, true⟩,
    ?_, ?_, rfl, rfl, rfl, rfl, rfl, rfl⟩
  · simp only [getKeystore]
    rw [dif_neg (hcond _), hA]
    rfl
  · simp only [getKeystore]
    rw [dif_neg (hcond _), hB]
    rfl

/-- Witness for the amended C3 at the concrete empty-passphrase environment. -/
theorem c3_amended_witness :
    ∃ rA rB,
      getKeystore id envEmptyPass MgrState.empty none false = .ok rA ∧
      getKeystore id envEmptyPass MgrState.empty none true = .ok rB ∧
      rA.ks = rB.ks ∧ rA.ks.passphrase = none ∧
      rA.warned = false ∧ rB.warned = true ∧
      rA.state.currentEncryption = some true ∧
      rB.state.currentEncryption = some false :=
  c3_empty_passphrase_plaintext id envEmptyPass MgrState.empty none rfl rfl

/-! ## Identity store contents (the opened keystore's data) -/

/-- The two identity kinds. -/
inductive IdType where
  | owner
  | agent
deriving Repr, DecidableEq

/-- An identity record as the commands construct and read it. -/
structure Identity where
  did : String
  type : IdType
  name : String
  createdAt : String
  ownerDid : Option String
deriving Repr, DecidableEq

/-- An asymmetric signing key pair held by the store. -/
structure KeyPair where
  publicKey : String
  privateKey : String
deriving Repr, DecidableEq

/-- The contents of an opened keystore: identity records, per-DID key
material, and the stored-credential inventory (id, data). -/
structure Store where
  identities : List Identity
  keys : List (String × KeyPair)
  creds : List (String × String)
deriving Repr, DecidableEq

/-- `keystore.getIdentity(did)`: lookup by exact DID string match. -/
def Store.getIdentity (st : Store) (did : String) : Option Identity :=
  st.identities.find? (fun i => i.did == did)

/-- `keystore.getKeyPair(did)`. -/
def Store.getKeyPair (st : Store) (did : String) : Option KeyPair :=
  (st.keys.find? (fun p => p.1 == did)).map (fun p => p.2)

/-- `keystore.storeIdentity(metadata, keyPair)`. -/
def Store.storeIdentity (st : Store) (i : Identity) (kp : KeyPair) : Store :=
  ⟨st.identities ++ [i], st.keys ++ [(i.did, kp)], st.creds⟩

/-! ## create agent (src/commands/create.ts, createAgentCommand) -/

/-- The body of the `create agent` command once the keystore is open: resolve
the `--owner` DID (throwing the owner-not-found error when absent and the
owner-type-mismatch error when it is not `owner`-typed), then generate a key
pair (external, passed in as `kp` with its derived DID `newDid`), build the
agent metadata and store it.  The returned store is the store after the
command (unchanged on every error path, since the command throws before
`storeIdentity`). -/
def createAgentAction (st : Store) (ownerDid name newDid createdAt : String)
    (kp : KeyPair) : Except KsError Identity × Store :=
  match st.getIdentity ownerDid with
  | none => (.error (.ownerNotFound ownerDid), st)
  | some o =>
    if o.type = IdType.owner then
      let m : Identity := ⟨newDid, .agent, name, createdAt, some ownerDid⟩
      (.ok m, st.storeIdentity m kp)
    else (.error (.ownerTypeMismatch ownerDid), st)

/-- C2: `create agent` with an `--owner` DID that does not resolve in the
keystore fails with the owner-not-found error, and with one that resolves to a
non-`owner` identity fails with the owner-type-mismatch error; in both cases
the store is unchanged (no new identity is stored). -/
theorem c2_create_agent_owner_checks (st : Store)
    (ownerDid name newDid createdAt : String) (kp : KeyPair) :
    (st.getIdentity ownerDid = none →
      createAgentAction st ownerDid name newDid createdAt kp =
        (.error (.ownerNotFound ownerDid), st)) ∧
    (∀ o, st.getIdentity ownerDid = some o → o.type ≠ IdType.owner →
      createAgentAction st ownerDid name newDid createdAt kp =
        (.error (.ownerTypeMismatch ownerDid), st)) := by
  constructor
  · intro hnone
    simp [createAgentAction, hnone]
  · intro o ho hty
    simp [createAgentAction, ho, hty]

/-- Witness for C2: an empty store (owner absent) and a store holding only an
`agent`-typed identity under the requested owner DID (type mismatch). -/
theorem c2_witness :
    createAgentAction ⟨[], [], []⟩ "did:key:o" "bot" "did:key:a" "t0" ⟨"pub", "priv"⟩ =
      (.error (.ownerNotFound "did:key:o"), ⟨[], [], []⟩) ∧
    createAgentAction ⟨[⟨"did:key:o", .agent, "other", "t0", none⟩], [], []⟩
        "did:key:o" "bot" "did:key:a" "t0" ⟨"pub", "priv"⟩ =
      (.error (.ownerTypeMismatch "did:key:o"),
        ⟨[⟨"did:key:o", .agent, "other", "t0", none⟩], [], []⟩) :=
  ⟨(c2_create_agent_owner_checks ⟨[], [], []⟩ "did:key:o" "bot" "did:key:a" "t0"
      ⟨"pub", "priv"⟩).1 rfl,
   (c2_create_agent_owner_checks ⟨[⟨"did:key:o", .agent, "other", "t0", none⟩], [], []⟩
      "did:key:o" "bot" "did:key:a" "t0" ⟨"pub", "priv"⟩).2
      ⟨"did:key:o", .agent, "other", "t0", none⟩ (by decide) (by decide)⟩

/-! ## Credential issuance (src/commands/vc.ts, issueCapabilityCommand) -/

/-- JavaScript `String.prototype.split(',')` over the underlying character
list: splits at every comma; the result always has at least one element (the
empty string splits to `[""]`). -/
def splitCommaAux : List Char → List Char → List (List Char)
  | [], acc => [acc.reverse]
  | c :: cs, acc =>
    if c = ',' then acc.reverse :: splitCommaAux cs []
    else splitCommaAux cs (c :: acc)

/-- JavaScript `"...".split(',')` on a string. -/
def jsSplitComma (s : String) : List String :=
  (splitCommaAux s.data []).map (fun cs => ⟨cs⟩)

/-- JavaScript `String.prototype.trim`: strip leading and trailing
whitespace. -/
def jsTrim (s : String) : String :=
  ⟨((s.data.dropWhile Char.isWhitespace).reverse.dropWhile
      Char.isWhitespace).reverse⟩

/-- The scope parse performed by the command:
`options.scopes.split(',').map(s => s.trim())`. -/
def parseScopes (s : String) : List String :=
  (jsSplitComma s).map jsTrim

/-- A capability credential's claim content as assembled at issuance. -/
structure Credential where
  issuer : String
  subject : String
  scopes : List String
  audience : Option String
  expires : Option String
deriving Repr, DecidableEq

/-- Modelled from the spec: `createCapabilityCredential` lives in the external
`agent-did` library, not in this repository.  Per the spec, `scopes` is
required and must be non-empty after parsing; empty or malformed scope lists
(here: lists with no non-empty scope string) fail with `InvalidScopes`. -/
def createCapabilityCredential (issuer subject : String) (scopes : List String)
    (audience expires : Option String) : Except KsError Credential :=
  if scopes.filter (fun s => s ≠ "") = [] then .error .invalidScopes
  else .ok ⟨issuer, subject, scopes, audience, expires⟩

/-- A signed credential token. -/
structure SignedJwt where
  credential : Credential
  signedWith : String
deriving Repr, DecidableEq

/-- Modelled from the spec: `signCredential` (external `agent-did` library)
signs the claim content with the issuer's private key; the token's internal
encoding is irrelevant to the claims settled here. -/
def signCredential (c : Credential) (kp : KeyPair) : SignedJwt :=
  ⟨c, kp.privateKey⟩

/-- The body of `vc issue capability` once the keystore is open: resolve the
issuer (must exist and be an `owner`), parse the scopes, build the capability
credential, fetch the issuer's key pair and sign. -/
def issueCapabilityAction (st : Store) (issuer subject scopesStr : String)
    (audience expires : Option String) : Except KsError SignedJwt :=
  match st.getIdentity issuer with
  | none => .error (.issuerNotFound issuer)
  | some o =>
    if o.type = IdType.owner then
      match createCapabilityCredential issuer subject (parseScopes scopesStr)
          audience expires with
      | .error e => .error e
      | .ok c =>
        match st.getKeyPair issuer with
        | none => .error (.keyNotFound issuer)
        | some kp => .ok (signCredential c kp)
    else .error (.issuerNotOwner issuer)

/-- C4: when the `--scopes` argument contains no non-empty scope after
comma-splitting and trimming (e.g. an empty or whitespace-only string),
capability issuance fails with the invalid-scopes error and no signed
credential is produced. -/
theorem c4_empty_scopes_rejected (st : Store)
    (issuer subject scopesStr : String) (audience expires : Option String)
    (o : Identity) (ho : st.getIdentity issuer = some o)
    (howner : o.type = IdType.owner)
    (hscopes : (parseScopes scopesStr).filter (fun s => s ≠ "") = []) :
    issueCapabilityAction st issuer subject scopesStr audience expires =
      .error KsError.invalidScopes := by
  simp only [issueCapabilityAction, ho]
  rw [if_pos howner]
  simp only [createCapabilityCredential]
  rw [if_pos hscopes]

/-- Witness for C4: a store holding the issuer as an owner, and a
whitespace-only `--scopes` argument. -/
theorem c4_witness :
    issueCapabilityAction
      ⟨[⟨"did:key:o", .owner, "alice", "t0", none⟩],
        [("did:key:o", ⟨"pub", "priv"⟩)], []⟩
      "did:key:o" "did:key:a" "  " none none =
    .error KsError.invalidScopes :=
  c4_empty_scopes_rejected
    ⟨[⟨"did:key:o", .owner, "alice", "t0", none⟩],
      [("did:key:o", ⟨"pub", "priv"⟩)], []⟩
    "did:key:o" "did:key:a" "  " none none
    ⟨"did:key:o", .owner, "alice", "t0", none⟩ (by decide) rfl (by decide)

/-! ## Verification commands (vc verify, auth verify) -/

/-- The structured result returned by the external verification functions
(`verifyCredential`, `verifyAuthChallenge`): validity flag plus an optional
reason; the command layer treats it opaquely. -/
structure VerifyResult where
  valid : Bool
  reason : Option String
deriving Repr, DecidableEq

/-- Observable outcome of one command invocation: whether a fault was thrown,
the process exit code, and the validity flag of the structured result that was
printed (when one was). -/
structure CommandRun where
  threw : Bool
  exitCode : Nat
  reported : Option Bool
deriving Repr, DecidableEq

/-- The `vc verify` command body: a missing credential file is a thrown fault
(exit 1); otherwise the verifier's structured result is printed.  In `--json`
mode the result is printed and the handler returns without calling
`process.exit`, so the process exits 0 even when the result is invalid; in
human-readable mode an invalid result exits 1. -/
def vcVerifyAction (fileExists : Bool) (json : Bool) (result : VerifyResult) :
    CommandRun :=
  if !fileExists then ⟨true, 1, none⟩
  else if json then ⟨false, 0, some result.valid⟩
  else if result.valid then ⟨false, 0, some true⟩
  else ⟨false, 1, some false⟩

/-- The `auth verify` command body: the verifier's structured result is
printed; an invalid result exits 1 in both `--json` and human-readable
modes. -/
def authVerifyAction (json : Bool) (result : VerifyResult) : CommandRun :=
  if json then ⟨false, if result.valid then 0 else 1, some result.valid⟩
  else if result.valid then ⟨false, 0, some true⟩
  else ⟨false, 1, some false⟩

/-- C6 (code bug evidence): at the failing input — `vc verify --json` over an
existing file whose credential verifies invalid — the command reports the
structured invalid result but exits 0, while the sibling `auth verify --json`
exits 1 on the same result, and a missing file is a thrown fault with
exit 1. -/
theorem c6_vc_json_invalid_exits_zero :
    vcVerifyAction true true ⟨false, some "Expired"⟩ = ⟨false, 0, some false⟩ ∧
    authVerifyAction true ⟨false, some "Expired"⟩ = ⟨false, 1, some false⟩ ∧
    vcVerifyAction false true ⟨false, none⟩ = ⟨true, 1, none⟩ := by
  decide

/-! ## auth sign (src/commands/auth.ts, signCommand) -/

/-- JavaScript `parseInt(s, 10)`: skip leading whitespace, read an optional
sign and the longest prefix of decimal digits; `NaN` (here `none`) when there
is no digit. -/
def jsParseInt (s : String) : Option Int :=
  let cs := s.data.dropWhile Char.isWhitespace
  let signed : Int × List Char :=
    match cs with
    | '-' :: r => (-1, r)
    | '+' :: r => (1, r)
    | r => (1, r)
  let ds := signed.2.takeWhile Char.isDigit
  if ds = [] then none
  else some (signed.1 * (ds.foldl (fun n c => n * 10 + (c.toNat - 48)) 0 : Nat))

/-- The challenge payload as the spec describes it. -/
structure AuthPayload where
  nonce : String
  aud : Option String
  domain : Option String
  iat : Int
  exp : Int
  did : String
deriving Repr, DecidableEq

/-- Modelled from the spec: `signAuthChallenge` (external `agent-did`
library) builds the canonical payload
`{nonce, aud?, domain?, iat = now, exp = iat + expiresIn, did}`. -/
def signAuthChallenge (did nonce : String) (audience domain : Option String)
    (expiresIn now : Int) : AuthPayload :=
  ⟨nonce, audience, domain, now, now + expiresIn, did⟩

/-- The `--expires-in` value the `auth sign` command passes on: the commander
option defaults to the string `"120"`, and the command applies
`parseInt(options.expiresIn, 10)`. -/
def signCommandExpiresIn (optExpiresIn : Option String) : Option Int :=
  jsParseInt (optExpiresIn.getD "120")

/-- The payload produced by the `auth sign` command (`none` when the
expires-in string has no integer parse). -/
def signCommandPayload (did nonce : String) (audience domain : Option String)
    (optExpiresIn : Option String) (now : Int) : Option AuthPayload :=
  (signCommandExpiresIn optExpiresIn).map
    (fun e => signAuthChallenge did nonce audience domain e now)

/-- C7: omitting `--expires-in` signs with `expiresIn = 120`, so the payload
satisfies `exp = iat + 120`; a supplied `--expires-in N` is passed through as
the integer parse of `N`. -/
theorem c7_expires_in_default (did nonce : String)
    (audience domain : Option String) (now : Int) :
    signCommandPayload did nonce audience domain none now =
      some ⟨nonce, audience, domain, now, now + 120, did⟩ ∧
    (∀ nStr, signCommandExpiresIn (some nStr) = jsParseInt nStr) := by
  have h120 : jsParseInt "120" = some 120 := by decide
  exact ⟨by simp [signCommandPayload, signCommandExpiresIn, h120,
    signAuthChallenge], fun nStr => rfl⟩

/-! ## Whole-invocation state and the inventory commands -/

/-- The mutable state a command invocation can touch: the manager's cache, the
opened keystore's contents, and a count of keystore-opening calls (how many
times `KeystoreManager.getKeystore` successfully opened the store). -/
structure World where
  mgr : MgrState
  store : Store
  opens : Nat
deriving Repr, DecidableEq

/-- Structural decode of a three-part token: header and payload parts. -/
structure DecodedJwt where
  header : String
  payload : String
deriving Repr, DecidableEq

/-- JavaScript-style split at every `'.'` character. -/
def splitDotAux : List Char → List Char → List (List Char)
  | [], acc => [acc.reverse]
  | c :: cs, acc =>
    if c = '.' then acc.reverse :: splitDotAux cs []
    else splitDotAux cs (c :: acc)

/-- Modelled from the spec: `decodeCredential` (external `agent-did` library)
performs a structural decode only of the three-part token — header and
payload, no signature check, no expiry check; `none` on malformed input. -/
def decodeCredential (jwt : String) : Option DecodedJwt :=
  match (splitDotAux jwt.data []).map (fun cs => (⟨cs⟩ : String)) with
  | [h, p, _] => some ⟨h, p⟩
  | _ => none

/-- The `vc inspect` command body from the extracted token onward: decode the
token structurally, throwing on malformed input; the keystore manager is never
consulted. -/
def inspectAction (w : World) (jwt : String) :
    Except KsError DecodedJwt × World :=
  match decodeCredential jwt with
  | none => (.error .invalidJwt, w)
  | some d => (.ok d, w)

/-- C8: `vc inspect` is store-free and idempotent: it leaves the whole world
(manager cache, keystore contents, open count) unchanged, and a second run on
the resulting world returns the identical structural result. -/
theorem c8_inspect_idempotent_store_free (w : World) (jwt : String) :
    (inspectAction w jwt).2 = w ∧
    (inspectAction (inspectAction w jwt).2 jwt).1 = (inspectAction w jwt).1 := by
  unfold inspectAction
  cases decodeCredential jwt <;> simp

/-- The `vc delete` command body: without `--yes` it throws the confirmation
error as its first statement; only afterwards is the keystore opened and the
credential inventory touched. -/
def deleteCredAction (resolve : String → String) (env : Env) (w : World)
    (yes : Bool) (cid : String) (store : Option String) (noEncryption : Bool) :
    Except KsError Bool × World :=
  if !yes then (.error .confirmationRequired, w)
  else
    match getKeystore resolve env w.mgr store noEncryption with
    | .error e => (.error e, w)
    | .ok r =>
      let opened : World := ⟨r.state, w.store, w.opens + 1⟩
      (.ok (opened.store.creds.any (fun c => c.1 == cid)),
        ⟨opened.mgr,
          ⟨opened.store.identities, opened.store.keys,
            opened.store.creds.filter (fun c => c.1 != cid)⟩,
          opened.opens⟩)

/-- C9: every `vc delete` invocation without `--yes` throws the confirmation
error and leaves the world untouched — the keystore is never opened (open
count unchanged) and no credential is deleted, regardless of the other
arguments. -/
theorem c9_delete_requires_yes (resolve : String → String) (env : Env)
    (w : World) (cid : String) (store : Option String) (ne : Bool) :
    deleteCredAction resolve env w false cid store ne =
      (.error .confirmationRequired, w) :=
  rfl

/-- The `vc list` command body: open the keystore via the manager; when the
store does not exist on disk (`keystore.exists()` false, passed in as
`storeExists`), report an empty credential list; otherwise list the stored
credentials. -/
def vcListAction (resolve : String → String) (env : Env) (w : World)
    (storeExists : Bool) (store : Option String) (noEncryption : Bool) :
    Except KsError (List (String × String)) × World :=
  match getKeystore resolve env w.mgr store noEncryption with
  | .error e => (.error e, w)
  | .ok r =>
    let opened : World := ⟨r.state, w.store, w.opens + 1⟩
    if !storeExists then (.ok [], opened)
    else (.ok opened.store.creds, opened)

/-- The exit code of a command body's result: thrown faults exit 1, normal
completion exits 0. -/
def runExitCode {α : Type} (res : Except KsError α) : Nat :=
  match res with
  | .ok _ => 0
  | .error _ => 1

/-- C10: when opening the keystore manager succeeds, `vc list` against a store
path where the keystore does not exist completes normally (exit code 0) and
reports the empty credential list, rather than failing with a not-found
error. -/
theorem c10_list_missing_store_empty (resolve : String → String) (env : Env)
    (w : World) (store : Option String) (ne : Bool) (r : KsResult)
    (h : getKeystore resolve env w.mgr store ne = .ok r) :
    (vcListAction resolve env w false store ne).1 = .ok [] ∧
    runExitCode (vcListAction resolve env w false store ne).1 = 0 := by
  simp [vcListAction, h, runExitCode]

/-- Witness for C10: a concrete environment with a passphrase, a fresh manager
state, and a nonexistent store. -/
theorem c10_witness :
    (vcListAction id ⟨some "pw", none, "/h"⟩ ⟨MgrState.empty, ⟨[], [], []⟩, 0⟩
        false none false).1 = .ok [] ∧
    runExitCode (vcListAction id ⟨some "pw", none, "/h"⟩
        ⟨MgrState.empty, ⟨[], [], []⟩, 0⟩ false none false).1 = 0 :=
  c10_list_missing_store_empty id ⟨some "pw", none, "/h"⟩
    ⟨MgrState.empty, ⟨[], [], []⟩, 0⟩ none false
    ⟨⟨"/h/.agent-did", some "pw", true, 0⟩,
      ⟨some ⟨"/h/.agent-did", some "pw", true, 0⟩, some "/h/.agent-did",
        some true, 1⟩, false⟩ (by rfl)

end AgentDid
